import Mathlib

/-!
# Gate/barrier motion controller — verification of the supervisory FSM

Shallow embedding of `src/tarea 2/codigo/main/main.c` (ESP32 gate controller).
The C code runs a busy-wait loop inside each state handler; following the
design notes of the spec we model one iteration of such a loop as one per-tick
FSM step: a pure function of the current configuration and the sampled
input snapshot.  Entry actions (motor command, lamp, tick/fault reset) are
applied at the transition into the target state, exactly the actions the
C handler performs before its polling loop.  The 50 ms timer callback that
increments `tick50ms` is external to the FSM; it appears as a separate
constructor of the reachability relation.
-/

namespace Porton

/-- Gate states, from the `estado_t` enum of `main.c`. -/
inductive estado_t where
  | EST_INIT_CONFIG
  | EST_CERRANDO
  | EST_ABRIENDO
  | EST_ABIERTO
  | EST_CERRADO
  | EST_PARADO
  | EST_ERROR
deriving DecidableEq, Repr

open estado_t

/-- Fault codes, from the `error_t` enum of `main.c`.
`ERR_DLSA` is the contradictory-limits fault, `ERR_TIMEOUT` the motion
timeout. -/
inductive error_t where
  | ERR_OK
  | ERR_DLSA
  | ERR_TIMEOUT
deriving DecidableEq, Repr

open error_t

/-- `MAX_TICKS_3MIN`: the motion-timeout threshold in 50 ms ticks
(3 minutes = 3*60*1000/50). -/
def MAX_TICKS_3MIN : Nat := 3600

/-- Input snapshot: the five polarity-normalized sensor booleans sampled by
the timer callback (`lsa` = limit open, `lsc` = limit closed, `ftc` =
photocell, `pp` = push button, `ca` = remote open command). -/
structure io_t where
  lsa : Bool
  lsc : Bool
  ftc : Bool
  pp : Bool
  ca : Bool
deriving DecidableEq, Repr

/-- The controller configuration: the global variables of `main.c` that the
FSM reads and writes (`estado_actual`, `error_code`, `tick50ms`) together
with the actuator outputs (`ma` = motor-open drive pin, `mc` = motor-close
drive pin, `lamp` = the 3-bit lamp code of the `io` struct). -/
structure config where
  estado_actual : estado_t
  error_code : error_t
  tick50ms : Nat
  ma : Bool
  mc : Bool
  lamp : Nat
deriving DecidableEq, Repr

/-- `motor_parar()`: de-energize both drive pins. -/
def motor_parar (c : config) : config := { c with ma := false, mc := false }

/-- `motor_abrir()`: energize the open drive, de-energize the close drive. -/
def motor_abrir (c : config) : config := { c with ma := true, mc := false }

/-- `motor_cerrar()`: de-energize the open drive, energize the close drive. -/
def motor_cerrar (c : config) : config := { c with ma := false, mc := true }

/-- `lampara(e)`: publish lamp code `e`. -/
def lampara (e : Nat) (c : config) : config := { c with lamp := e }

/-- Entry actions of each state: exactly the statements each C handler
executes before its polling loop (`f_init_config` additionally clears the
fault code and resets the tick; `f_cerrando`/`f_abriendo`/`f_abierto`
reset the tick). -/
def entry (s : estado_t) (c : config) : config :=
  match s with
  | EST_INIT_CONFIG =>
      lampara 0 (motor_parar { c with estado_actual := s, tick50ms := 0, error_code := ERR_OK })
  | EST_CERRANDO =>
      lampara 2 (motor_cerrar { c with estado_actual := s, tick50ms := 0 })
  | EST_ABRIENDO =>
      lampara 2 (motor_abrir { c with estado_actual := s, tick50ms := 0 })
  | EST_ABIERTO =>
      lampara 0 (motor_parar { c with estado_actual := s, tick50ms := 0 })
  | EST_CERRADO =>
      lampara 0 (motor_parar { c with estado_actual := s })
  | EST_PARADO =>
      lampara 3 (motor_parar { c with estado_actual := s })
  | EST_ERROR =>
      lampara 1 (motor_parar { c with estado_actual := s })

/-- Guard cascade of `f_init_config` as written in the source, with the
final fallback `return EST_CERRADO` kept apart as the `none` case so its
reachability can be analysed. -/
def f_init_guards (i : io_t) : Option (estado_t × error_t) :=
  if i.lsa && i.lsc then some (EST_ERROR, ERR_DLSA)
  else if !i.lsa && !i.lsc then some (EST_CERRANDO, ERR_OK)
  else if i.lsc then some (EST_CERRADO, ERR_OK)
  else if i.lsa then some (EST_ABIERTO, ERR_OK)
  else none

/-- One step in `EST_INIT_CONFIG`: the whole body of `f_init_config`, which
runs its entry actions and evaluates its guard cascade once (it has no
polling loop). -/
def f_init_config (c : config) (i : io_t) : config :=
  let c := entry EST_INIT_CONFIG c
  match f_init_guards i with
  | some (EST_ERROR, e) => entry EST_ERROR { c with error_code := e }
  | some (s, _) => entry s c
  | none => entry EST_CERRADO c

/-- One polling iteration of `f_cerrando`. -/
def f_cerrando (c : config) (i : io_t) : config :=
  if i.lsa && i.lsc then entry EST_ERROR { c with error_code := ERR_DLSA }
  else if i.ftc then entry EST_ABRIENDO c
  else if i.lsc then entry EST_CERRADO c
  else if c.tick50ms > MAX_TICKS_3MIN then entry EST_ERROR { c with error_code := ERR_TIMEOUT }
  else c

/-- One polling iteration of `f_abriendo`. -/
def f_abriendo (c : config) (i : io_t) : config :=
  if i.lsa && i.lsc then entry EST_ERROR { c with error_code := ERR_DLSA }
  else if i.lsa then entry EST_ABIERTO c
  else if i.pp then entry EST_PARADO c
  else if c.tick50ms > MAX_TICKS_3MIN then entry EST_ERROR { c with error_code := ERR_TIMEOUT }
  else c

/-- One polling iteration of `f_abierto`: while the photocell is active the
handler resets the tick and stays. -/
def f_abierto (c : config) (i : io_t) : config :=
  if i.ftc then { c with tick50ms := 0 }
  else if (i.pp || i.ca) && !i.ftc then entry EST_CERRANDO c
  else if i.lsa && i.lsc then entry EST_ERROR { c with error_code := ERR_DLSA }
  else if c.tick50ms > MAX_TICKS_3MIN then entry EST_ERROR { c with error_code := ERR_TIMEOUT }
  else c

/-- One polling iteration of `f_cerrado`. -/
def f_cerrado (c : config) (i : io_t) : config :=
  if i.pp || i.ca then entry EST_ABRIENDO c
  else if !i.lsa && !i.lsc then entry EST_CERRANDO c
  else if i.lsa && i.lsc then entry EST_ERROR { c with error_code := ERR_DLSA }
  else c

/-- One polling iteration of `f_parado`. -/
def f_parado (c : config) (i : io_t) : config :=
  if i.pp && !i.lsc then entry EST_CERRANDO c
  else if i.lsa && !i.ftc then entry EST_ABRIENDO c
  else if i.lsa && i.lsc then entry EST_ERROR { c with error_code := ERR_DLSA }
  else c

/-- One polling iteration of `f_error`: with `ERR_DLSA` it waits for the
contradiction to clear and then returns to `EST_INIT_CONFIG`; with any
other code it loops forever. -/
def f_error (c : config) (i : io_t) : config :=
  if c.error_code = ERR_DLSA then
    if i.lsa && i.lsc then c
    else entry EST_INIT_CONFIG c
  else c

/-- One FSM step: the dispatch switch of `app_main`, one guard evaluation
of the handler of the current state. -/
def fsm_step (c : config) (i : io_t) : config :=
  match c.estado_actual with
  | EST_INIT_CONFIG => f_init_config c i
  | EST_CERRANDO => f_cerrando c i
  | EST_ABRIENDO => f_abriendo c i
  | EST_ABIERTO => f_abierto c i
  | EST_CERRADO => f_cerrado c i
  | EST_PARADO => f_parado c i
  | EST_ERROR => f_error c i

/-- The boot configuration of `app_main`: `estado_actual = EST_INIT_CONFIG`,
`error_code = ERR_OK`, `tick50ms = 0`, outputs low. -/
def init_config : config :=
  { estado_actual := EST_INIT_CONFIG, error_code := ERR_OK, tick50ms := 0,
    ma := false, mc := false, lamp := 0 }

/-- Reachable configurations: the boot configuration, closed under FSM
steps with any snapshot and under the `tick50ms++` of the 50 ms timer
callback (a `uint32_t` increment, hence the wraparound). -/
inductive Reachable : config → Prop where
  | boot : Reachable init_config
  | step (c : config) (i : io_t) : Reachable c → Reachable (fsm_step c i)
  | tick (c : config) : Reachable c → Reachable { c with tick50ms := (c.tick50ms + 1) % 2 ^ 32 }

/-! ## Helper lemmas -/

/-- Every entry action leaves at most one drive pin asserted. -/
lemma entry_drive_excl (s : estado_t) (c : config) :
    ¬((entry s c).ma = true ∧ (entry s c).mc = true) := by
  cases s <;> simp [entry, motor_parar, motor_abrir, motor_cerrar, lampara]

/-- One FSM step preserves drive-pin mutual exclusion. -/
lemma fsm_step_drive_excl (c : config) (i : io_t)
    (h : ¬(c.ma = true ∧ c.mc = true)) :
    ¬((fsm_step c i).ma = true ∧ (fsm_step c i).mc = true) := by
  rcases c with ⟨s, e, t, ma, mc, lamp⟩
  cases s <;>
    simp only [fsm_step, f_init_config, f_init_guards, f_cerrando, f_abriendo,
      f_abierto, f_cerrado, f_parado, f_error] <;>
    split_ifs <;>
    first
      | exact entry_drive_excl _ _
      | exact h

/-- A fixed point of every single step is a fixed point of every run. -/
lemma foldl_fixed {c : config} (h : ∀ i, fsm_step c i = c) :
    ∀ l : List io_t, List.foldl fsm_step c l = c := by
  intro l
  induction l with
  | nil => rfl
  | cons i l ih => rw [List.foldl_cons, h i]; exact ih

/-- In `EST_ABIERTO` an active photocell makes the step reset the tick and
stay. -/
lemma abierto_ftc_step (c : config) (i : io_t)
    (hs : c.estado_actual = EST_ABIERTO) (hftc : i.ftc = true) :
    fsm_step c i = { c with tick50ms := 0 } := by
  simp [fsm_step, hs, f_abierto, hftc]

/-- Runs whose every snapshot has the photocell active hold `EST_ABIERTO`
and never change the fault code. -/
lemma abierto_hold (l : List io_t) :
    ∀ c : config, c.estado_actual = EST_ABIERTO → (∀ i ∈ l, i.ftc = true) →
      (List.foldl fsm_step c l).estado_actual = EST_ABIERTO ∧
      (List.foldl fsm_step c l).error_code = c.error_code := by
  induction l with
  | nil => exact fun c hs _ => ⟨hs, rfl⟩
  | cons i l ih =>
      intro c hs hl
      rw [List.foldl_cons, abierto_ftc_step c i hs (hl i (by simp))]
      exact ih _ hs fun j hj => hl j (by simp [hj])

/-! ## Claim C1 -/

/-- Claim C1, counterexample: in `EST_CERRADO` with both limits active and
the push button pressed, the step goes to `EST_ABRIENDO`, not to
`EST_ERROR`: the `pp || ca` guard of `f_cerrado` precedes the
contradictory-limit check, refuting the claim as stated. -/
theorem c1_counterexample :
    (⟨EST_CERRADO, ERR_OK, 0, false, false, 0⟩ : config).estado_actual ≠ EST_ERROR ∧
    (⟨true, true, false, true, false⟩ : io_t).lsa = true ∧
    (⟨true, true, false, true, false⟩ : io_t).lsc = true ∧
    (fsm_step ⟨EST_CERRADO, ERR_OK, 0, false, false, 0⟩
      ⟨true, true, false, true, false⟩).estado_actual = EST_ABRIENDO ∧
    (fsm_step ⟨EST_CERRADO, ERR_OK, 0, false, false, 0⟩
      ⟨true, true, false, true, false⟩).estado_actual ≠ EST_ERROR := by
  decide

/-- Claim C1, amended: in the motion-capable states `EST_INIT_CONFIG`,
`EST_CERRANDO` and `EST_ABRIENDO` the contradictory-limit guard is checked
first, so every snapshot with both limits active transitions to
`EST_ERROR` with code `ERR_DLSA`; in `EST_ABIERTO`, `EST_CERRADO` and
`EST_PARADO` an earlier photocell or command guard can preempt it. -/
theorem c1_contradictory_limits_first (c : config) (i : io_t)
    (hs : c.estado_actual = EST_INIT_CONFIG ∨ c.estado_actual = EST_CERRANDO ∨
      c.estado_actual = EST_ABRIENDO)
    (ha : i.lsa = true) (hb : i.lsc = true) :
    (fsm_step c i).estado_actual = EST_ERROR ∧ (fsm_step c i).error_code = ERR_DLSA := by
  rcases hs with hs | hs | hs <;>
    simp [fsm_step, hs, f_init_config, f_init_guards, f_cerrando, f_abriendo, ha, hb,
      entry, motor_parar, motor_cerrar, motor_abrir, lampara]

/-- Witness for the amended C1 at the boot configuration. -/
theorem c1_contradictory_limits_first_witness :
    (fsm_step init_config ⟨true, true, false, false, false⟩).estado_actual = EST_ERROR ∧
    (fsm_step init_config ⟨true, true, false, false, false⟩).error_code = ERR_DLSA :=
  c1_contradictory_limits_first init_config ⟨true, true, false, false, false⟩
    (Or.inl rfl) rfl rfl

/-! ## Claim C2 -/

/-- Claim C2: every motor command stops both drives or asserts exactly one
of them, and in every reachable configuration at most one of the two drive
pins is asserted. -/
theorem c2_drive_mutual_exclusion :
    (∀ c : config,
      (motor_parar c).ma = false ∧ (motor_parar c).mc = false ∧
      (motor_abrir c).ma = true ∧ (motor_abrir c).mc = false ∧
      (motor_cerrar c).ma = false ∧ (motor_cerrar c).mc = true) ∧
    ∀ c : config, Reachable c → ¬(c.ma = true ∧ c.mc = true) := by
  refine ⟨fun c => ⟨rfl, rfl, rfl, rfl, rfl, rfl⟩, fun c h => ?_⟩
  induction h with
  | boot => decide
  | step c i hc ih => exact fsm_step_drive_excl c i ih
  | tick c hc ih => exact ih

/-- Witness for C2 at the boot configuration. -/
theorem c2_drive_mutual_exclusion_witness :
    ¬(init_config.ma = true ∧ init_config.mc = true) :=
  c2_drive_mutual_exclusion.2 init_config Reachable.boot

/-! ## Claim C3 -/

/-- Claim C3: in `EST_ABIERTO` every snapshot with the photocell active
(whatever the push button and remote command say) makes the step stay in
`EST_ABIERTO` and reset the tick to zero, and any run of such snapshots
holds `EST_ABIERTO` with the fault code unchanged, so the motion timeout
never fires. -/
theorem c3_photocell_anti_entrapment (c : config)
    (hs : c.estado_actual = EST_ABIERTO) :
    (∀ i : io_t, i.ftc = true → fsm_step c i = { c with tick50ms := 0 }) ∧
    (∀ l : List io_t, (∀ i ∈ l, i.ftc = true) →
      (List.foldl fsm_step c l).estado_actual = EST_ABIERTO ∧
      (List.foldl fsm_step c l).error_code = c.error_code) :=
  ⟨fun i h => abierto_ftc_step c i hs h, fun l hl => abierto_hold l c hs hl⟩

/-- Witness for C3: two photocell-active snapshots, the first with the
push button and remote command also pressed, hold `EST_ABIERTO`. -/
theorem c3_photocell_anti_entrapment_witness :
    (List.foldl fsm_step ⟨EST_ABIERTO, ERR_OK, 7, false, false, 0⟩
      [⟨false, false, true, true, true⟩,
       ⟨true, true, true, true, true⟩]).estado_actual = EST_ABIERTO :=
  ((c3_photocell_anti_entrapment ⟨EST_ABIERTO, ERR_OK, 7, false, false, 0⟩ rfl).2
    [⟨false, false, true, true, true⟩, ⟨true, true, true, true, true⟩] (by decide)).1

/-! ## Claim C4 -/

/-- Claim C4: in `EST_ERROR` with code `ERR_DLSA` the FSM holds while both
limits stay active; the first snapshot without the contradiction yields
`EST_INIT_CONFIG` with the fault code cleared to `ERR_OK`; and with
`lsa = false, lsc = true` the step after that recovery reaches
`EST_CERRADO`. -/
theorem c4_dlsa_recovery (c : config)
    (hs : c.estado_actual = EST_ERROR) (he : c.error_code = ERR_DLSA) :
    (∀ i : io_t, i.lsa = true → i.lsc = true → fsm_step c i = c) ∧
    (∀ j : io_t, ¬(j.lsa = true ∧ j.lsc = true) →
      (fsm_step c j).estado_actual = EST_INIT_CONFIG ∧
      (fsm_step c j).error_code = ERR_OK) ∧
    (∀ k : io_t, k.lsa = false → k.lsc = true →
      (fsm_step (fsm_step c k) k).estado_actual = EST_CERRADO) := by
  refine ⟨fun i h1 h2 => ?_, fun j hj => ?_, fun k hk1 hk2 => ?_⟩
  · simp [fsm_step, hs, f_error, he, h1, h2]
  · simp [fsm_step, hs, f_error, he, hj, entry, motor_parar, lampara]
  · have h1 : fsm_step c k = entry EST_INIT_CONFIG c := by
      simp [fsm_step, hs, f_error, he, hk1]
    rw [h1]
    simp [fsm_step, entry, motor_parar, lampara, f_init_config, f_init_guards, hk1, hk2]

/-- Witness for C4: recovery from the contradictory-limits fault with
`lsa = false, lsc = true` reaches `EST_CERRADO` in two steps. -/
theorem c4_dlsa_recovery_witness :
    (fsm_step (fsm_step ⟨EST_ERROR, ERR_DLSA, 5, false, false, 1⟩
      ⟨false, true, false, false, false⟩)
      ⟨false, true, false, false, false⟩).estado_actual = EST_CERRADO :=
  (c4_dlsa_recovery ⟨EST_ERROR, ERR_DLSA, 5, false, false, 1⟩ rfl rfl).2.2
    ⟨false, true, false, false, false⟩ rfl rfl

/-! ## Claim C5 -/

/-- In any reachable configuration sitting in `EST_ERROR` the motor is
de-energized and the lamp shows the fault code 1. -/
lemma error_outputs_inv (c : config) (hr : Reachable c) :
    c.estado_actual = EST_ERROR → c.ma = false ∧ c.mc = false ∧ c.lamp = 1 := by
  induction hr with
  | boot => intro h; exact absurd h (by decide)
  | step c i hc ih =>
      rcases c with ⟨s, e, t, ma, mc, lp⟩
      cases s <;>
        simp only [fsm_step, f_init_config, f_init_guards, f_cerrando, f_abriendo,
          f_abierto, f_cerrado, f_parado, f_error] <;>
        split_ifs <;>
        simp_all [entry, motor_parar, motor_abrir, motor_cerrar, lampara]
  | tick c hc ih => exact ih

/-- Claim C5: a reachable `EST_ERROR` configuration with code
`ERR_TIMEOUT` has the motor stopped and the lamp on the fault code, and
every run from it, whatever the snapshots, leaves it exactly unchanged:
the motion-timeout fault is terminal. -/
theorem c5_motion_timeout_terminal (c : config) (hr : Reachable c)
    (hs : c.estado_actual = EST_ERROR) (he : c.error_code = ERR_TIMEOUT) :
    c.ma = false ∧ c.mc = false ∧ c.lamp = 1 ∧
    ∀ l : List io_t, List.foldl fsm_step c l = c := by
  obtain ⟨h1, h2, h3⟩ := error_outputs_inv c hr hs
  refine ⟨h1, h2, h3, foldl_fixed fun i => ?_⟩
  simp [fsm_step, hs, f_error, he]

/-- From a reachable configuration with tick zero every tick value below
the `uint32_t` bound is reachable by timer increments alone. -/
lemma reach_tick (s : estado_t) (e : error_t) (ma mc : Bool) (lp : Nat)
    (hc : Reachable ⟨s, e, 0, ma, mc, lp⟩) :
    ∀ n : Nat, n < 2 ^ 32 → Reachable ⟨s, e, n, ma, mc, lp⟩ := by
  intro n
  induction n with
  | zero => exact fun _ => hc
  | succ n ih =>
      intro hn
      have h : Reachable (⟨s, e, (n + 1) % 2 ^ 32, ma, mc, lp⟩ : config) :=
        Reachable.tick _ (ih (Nat.lt_of_succ_lt hn))
      rwa [Nat.mod_eq_of_lt hn] at h

/-- Witness for C5: a reachable timeout fault, built by entering
`EST_CERRANDO` from boot, letting the timer reach tick 3601 and stepping
into the fault, is untouched by a further snapshot. -/
theorem c5_motion_timeout_terminal_witness :
    List.foldl fsm_step ⟨EST_ERROR, ERR_TIMEOUT, 3601, false, false, 1⟩
      [⟨false, true, false, true, true⟩] = ⟨EST_ERROR, ERR_TIMEOUT, 3601, false, false, 1⟩ := by
  have h1 : Reachable (⟨EST_CERRANDO, ERR_OK, 0, false, true, 2⟩ : config) := by
    have h := Reachable.step init_config ⟨false, false, false, false, false⟩ Reachable.boot
    have he : fsm_step init_config ⟨false, false, false, false, false⟩ =
        ⟨EST_CERRANDO, ERR_OK, 0, false, true, 2⟩ := by decide
    rwa [he] at h
  have h2 : Reachable (⟨EST_CERRANDO, ERR_OK, 3601, false, true, 2⟩ : config) :=
    reach_tick EST_CERRANDO ERR_OK false true 2 h1 3601 (by norm_num)
  have h3 : Reachable (⟨EST_ERROR, ERR_TIMEOUT, 3601, false, false, 1⟩ : config) := by
    have h := Reachable.step _ ⟨false, false, false, false, false⟩ h2
    have he : fsm_step ⟨EST_CERRANDO, ERR_OK, 3601, false, true, 2⟩
        ⟨false, false, false, false, false⟩ =
        ⟨EST_ERROR, ERR_TIMEOUT, 3601, false, false, 1⟩ := by decide
    rwa [he] at h
  exact (c5_motion_timeout_terminal _ h3 rfl rfl).2.2.2 [⟨false, true, false, true, true⟩]

/-! ## Claim C6 -/

/-- Claim C6: the `EST_CERRANDO` row of the transition table. Entry drives
the motor closed, sets lamp code 2 and resets the tick; then, in priority
order, both limits active yields `EST_ERROR` with `ERR_DLSA`, otherwise an
active photocell yields `EST_ABRIENDO`, otherwise the closed limit yields
`EST_CERRADO`, otherwise a tick beyond `MAX_TICKS_3MIN` yields `EST_ERROR`
with `ERR_TIMEOUT`, and otherwise the step changes nothing. -/
theorem c6_closing_row (c : config) (i : io_t)
    (hs : c.estado_actual = EST_CERRANDO) :
    ((entry EST_CERRANDO c).ma = false ∧ (entry EST_CERRANDO c).mc = true ∧
      (entry EST_CERRANDO c).lamp = 2 ∧ (entry EST_CERRANDO c).tick50ms = 0) ∧
    (i.lsa = true → i.lsc = true →
      (fsm_step c i).estado_actual = EST_ERROR ∧
      (fsm_step c i).error_code = ERR_DLSA) ∧
    (¬(i.lsa = true ∧ i.lsc = true) → i.ftc = true →
      (fsm_step c i).estado_actual = EST_ABRIENDO) ∧
    (¬(i.lsa = true ∧ i.lsc = true) → i.ftc = false → i.lsc = true →
      (fsm_step c i).estado_actual = EST_CERRADO) ∧
    (¬(i.lsa = true ∧ i.lsc = true) → i.ftc = false → i.lsc = false →
      c.tick50ms > MAX_TICKS_3MIN →
      (fsm_step c i).estado_actual = EST_ERROR ∧
      (fsm_step c i).error_code = ERR_TIMEOUT) ∧
    (¬(i.lsa = true ∧ i.lsc = true) → i.ftc = false → i.lsc = false →
      ¬(c.tick50ms > MAX_TICKS_3MIN) → fsm_step c i = c) := by
  refine ⟨by simp [entry, motor_cerrar, lampara], ?_, ?_, ?_, ?_, ?_⟩
  · intro h1 h2
    simp [fsm_step, hs, f_cerrando, h1, h2, entry, motor_parar, lampara]
  · intro h1 h2
    simp [fsm_step, hs, f_cerrando, h1, h2, entry, motor_abrir, lampara]
  · intro h1 h2 h3
    have h4 : i.lsa = false := by
      cases h : i.lsa
      · rfl
      · exact absurd ⟨h, h3⟩ h1
    simp [fsm_step, hs, f_cerrando, h1, h2, h3, h4, entry, motor_parar, lampara]
  · intro h1 h2 h3 h4
    simp [fsm_step, hs, f_cerrando, h1, h2, h3, h4, entry, motor_parar, lampara]
  · intro h1 h2 h3 h4
    simp [fsm_step, hs, f_cerrando, h1, h2, h3, h4]

/-- Witness for C6: the else row, every guard inactive, is a fixed point. -/
theorem c6_closing_row_witness :
    fsm_step ⟨EST_CERRANDO, ERR_OK, 0, false, true, 2⟩
      ⟨false, false, false, false, false⟩ = ⟨EST_CERRANDO, ERR_OK, 0, false, true, 2⟩ :=
  (c6_closing_row ⟨EST_CERRANDO, ERR_OK, 0, false, true, 2⟩
    ⟨false, false, false, false, false⟩ rfl).2.2.2.2.2 (by decide) rfl rfl (by decide)

/-! ## Claim C7 -/

/-- Claim C7: in `EST_CERRANDO`, with the photocell inactive and the
closed limit off, the step faults with `ERR_TIMEOUT` exactly when the tick
strictly exceeds the named constant `MAX_TICKS_3MIN = 3600`; in particular
tick 3601 faults. -/
theorem c7_timeout_threshold (c : config) (i : io_t)
    (hs : c.estado_actual = EST_CERRANDO) (hftc : i.ftc = false)
    (hlsc : i.lsc = false) :
    MAX_TICKS_3MIN = 3600 ∧
    (((fsm_step c i).estado_actual = EST_ERROR ∧
      (fsm_step c i).error_code = ERR_TIMEOUT) ↔ c.tick50ms > MAX_TICKS_3MIN) ∧
    (c.tick50ms = 3601 →
      (fsm_step c i).estado_actual = EST_ERROR ∧
      (fsm_step c i).error_code = ERR_TIMEOUT) := by
  have hstep : fsm_step c i = f_cerrando c i := by simp [fsm_step, hs]
  refine ⟨rfl, ?_, ?_⟩
  · rw [hstep]
    unfold f_cerrando
    simp only [hftc, hlsc, Bool.and_false, Bool.false_eq_true, if_false]
    split_ifs with h
    · simpa [entry, motor_parar, lampara] using h
    · simpa [hs] using h
  · intro ht
    rw [hstep]
    unfold f_cerrando
    simp [hftc, hlsc, ht, MAX_TICKS_3MIN, entry, motor_parar, lampara]

/-- Witness for C7 at tick 3601. -/
theorem c7_timeout_threshold_witness :
    (fsm_step ⟨EST_CERRANDO, ERR_OK, 3601, false, true, 2⟩
      ⟨false, false, false, false, false⟩).estado_actual = EST_ERROR ∧
    (fsm_step ⟨EST_CERRANDO, ERR_OK, 3601, false, true, 2⟩
      ⟨false, false, false, false, false⟩).error_code = ERR_TIMEOUT :=
  (c7_timeout_threshold ⟨EST_CERRANDO, ERR_OK, 3601, false, true, 2⟩
    ⟨false, false, false, false, false⟩ rfl rfl rfl).2.2 rfl

/-! ## Claim C8 -/

/-- A step that does not change the state is either the identity or, in
`EST_ABIERTO` with the photocell active, the tick reset: no guard of any
handler transitions into the very state it is leaving. -/
lemma step_same_estado (c : config) (i : io_t)
    (h : (fsm_step c i).estado_actual = c.estado_actual) :
    fsm_step c i = c ∨
      (fsm_step c i = { c with tick50ms := 0 } ∧
        c.estado_actual = EST_ABIERTO ∧ i.ftc = true) := by
  rcases c with ⟨s, e, t, ma, mc, lp⟩
  cases s <;>
    simp only [fsm_step, f_init_config, f_init_guards, f_cerrando, f_abriendo, f_abierto,
      f_cerrado, f_parado, f_error] at h ⊢ <;>
    split_ifs at h ⊢ <;>
    simp_all [entry, motor_parar, motor_abrir, motor_cerrar, lampara]

/-- Claim C8: if a step with a snapshot stays in the current state, then
repeating the step with the identical snapshot and unchanged tick yields
the very same configuration again — a stayed state is a fixed point of
the step, apart from tick accounting. -/
theorem c8_stay_fixed_point (c : config) (i : io_t)
    (h : (fsm_step c i).estado_actual = c.estado_actual) :
    fsm_step (fsm_step c i) i = fsm_step c i := by
  rcases step_same_estado c i h with h1 | ⟨h1, h2, h3⟩
  · rw [h1]; exact h1
  · rw [h1, abierto_ftc_step { c with tick50ms := 0 } i h2 h3]

/-- Witness for C8: `EST_CERRADO` with only the closed limit active stays,
and stays again. -/
theorem c8_stay_fixed_point_witness :
    fsm_step (fsm_step ⟨EST_CERRADO, ERR_OK, 0, false, false, 0⟩
      ⟨false, true, false, false, false⟩) ⟨false, true, false, false, false⟩ =
    fsm_step ⟨EST_CERRADO, ERR_OK, 0, false, false, 0⟩
      ⟨false, true, false, false, false⟩ :=
  c8_stay_fixed_point ⟨EST_CERRADO, ERR_OK, 0, false, false, 0⟩
    ⟨false, true, false, false, false⟩ (by decide)

/-! ## Claim C9 -/

/-- Claim C9: in `EST_ERROR` with any fault code other than `ERR_DLSA` —
including `ERR_OK` — every run, whatever its snapshots, leaves the
configuration exactly unchanged (state, fault code, motor and lamp):
`ERR_DLSA` is the only fault code with an exit path. -/
theorem c9_error_terminal_non_dlsa (c : config)
    (hs : c.estado_actual = EST_ERROR) (he : c.error_code ≠ ERR_DLSA) :
    ∀ l : List io_t, List.foldl fsm_step c l = c := by
  refine foldl_fixed fun i => ?_
  simp [fsm_step, hs, f_error, he]

/-- Witness for C9 with fault code `ERR_OK` and an all-active snapshot. -/
theorem c9_error_terminal_non_dlsa_witness :
    List.foldl fsm_step ⟨EST_ERROR, ERR_OK, 0, false, false, 1⟩
      [⟨true, true, true, true, true⟩] = ⟨EST_ERROR, ERR_OK, 0, false, false, 1⟩ :=
  c9_error_terminal_non_dlsa ⟨EST_ERROR, ERR_OK, 0, false, false, 1⟩ rfl (by decide)
    [⟨true, true, true, true, true⟩]

/-! ## Claim C10 -/

/-- Claim C10: the guard cascade of `f_init_config` never falls through to
the final `EST_CERRADO` fallback, and for every snapshot exactly one of
its four guards (both limits active; both inactive; closed limit; open
limit) is the first match. -/
theorem c10_init_fallback_unreachable (i : io_t) :
    (f_init_guards i).isSome = true ∧
    ((i.lsa && i.lsc).toNat
      + (!(i.lsa && i.lsc) && (!i.lsa && !i.lsc)).toNat
      + (!(i.lsa && i.lsc) && !(!i.lsa && !i.lsc) && i.lsc).toNat
      + (!(i.lsa && i.lsc) && !(!i.lsa && !i.lsc) && !i.lsc && i.lsa).toNat) = 1 := by
  rcases i with ⟨lsa, lsc, ftc, pp, ca⟩
  cases lsa <;> cases lsc <;> exact ⟨rfl, rfl⟩

end Porton
